import Mathlib

/- Verification development for the EasyConverter backend.

   Shallow embedding of src/backend/main.py and src/backend/converter.py:
   the task registry and its lifecycle, the upload/status/download endpoint
   logic, the conversion dispatch of both FileConverter variants, the
   optional-library probes at module import time, and the numeric/format
   parameters of the image and PDF strategies.

   External effects (PIL, PyMuPDF, python-pptx, the filesystem) are opaque:
   the embedding records which strategy is selected and with which
   parameters, and models a strategy run as an abstract `Except` outcome. -/

/-- Generic list helper: `startsWithL needle hay` is true when `needle` is an
initial segment of `hay`. Used to model Python substring matching. -/
def startsWithL {α : Type} [DecidableEq α] : List α → List α → Bool
  | [], _ => true
  | _ :: _, [] => false
  | a :: as, b :: bs => if a = b then startsWithL as bs else false

/-- Generic list helper: `containsSeq needle hay` is true when `needle` occurs
as a contiguous subsequence of `hay`. -/
def containsSeq {α : Type} [DecidableEq α] (needle : List α) : List α → Bool
  | [] => needle.isEmpty
  | c :: rest => startsWithL needle (c :: rest) || containsSeq needle rest

/-- `containsSubstr needle hay`: `needle` occurs inside `hay`. This models the
filename test performed by `DOWNLOAD_DIR.glob(f"*{task_id}*")` in
src/backend/main.py `download_file` (a task id contains no glob
metacharacters, so the glob is exactly substring containment). -/
def containsSubstr (needle hay : String) : Bool :=
  containsSeq needle.data hay.data

/-- Index of the last '.' in a character list, if any. Helper for the
`pathlib.PurePath.stem` semantics used by both converters. -/
def lastDotIdx : List Char → Option Nat
  | [] => none
  | c :: cs =>
    match lastDotIdx cs with
    | some i => some (i + 1)
    | none => if c = '.' then some 0 else none

/-- `pathlib` stem of a file name: the name without its final extension.
Mirrors CPython: the extension starts at the last dot, provided that dot is
neither the first nor the last character of the name. -/
def pathStem (name : String) : String :=
  match lastDotIdx name.data with
  | some i =>
    if 0 < i ∧ i + 1 < name.data.length then String.mk (name.data.take i) else name
  | none => name

/-- Python `str.lower()` restricted to ASCII case mapping, which is all the
code's extension and format strings use. Implemented over the character list
so that it reduces inside the kernel. -/
def pyLower (s : String) : String := String.mk (s.data.map Char.toLower)

/-- Python `str.upper()` restricted to ASCII case mapping, as `pyLower`. -/
def pyUpper (s : String) : String := String.mk (s.data.map Char.toUpper)

/-- Task status enumeration from the spec data model. The Python code stores
the strings "pending"/"processing"/"completed"/"failed"; they are embedded as
constructors. -/
inductive Status where
  | pending
  | processing
  | completed
  | failed
deriving DecidableEq

/-- One entry of the in-memory `tasks` dict of src/backend/main.py. The dicts
stored by the code carry a subset of the keys {status, output_file,
target_format, error}; absent keys are `none`. -/
structure TaskRec where
  status : Status
  output_file : Option String
  target_format : Option String
  error : Option String
deriving DecidableEq

/-- The `tasks` registry: the global dict of src/backend/main.py, as a map
from task id to record. -/
abbrev Tasks := String → Option TaskRec

/-- The initial, empty `tasks` dict. -/
def emptyTasks : Tasks := fun _ => none

/-- Dict assignment `tasks[file_id] = r`. -/
def updateTasks (t : Tasks) (id : String) (r : TaskRec) : Tasks :=
  fun j => if j = id then some r else t j

/-- The Vercel upload ceiling of src/backend/main.py `upload_file`:
`4 * 1024 * 1024` bytes, compared with strict `>`. -/
def MAX_UPLOAD : Nat := 4 * 1024 * 1024

/-- Responses of the `upload_file` endpoint of src/backend/main.py:
the 413 rejection, the success JSON `{"task_id": ..., "status": "completed"}`,
and the 500 JSON returned when the conversion raised. -/
inductive UploadResponse where
  | tooLarge (detail : String)
  | done (task_id : String) (status : Status)
  | convFailed (detail : String)
deriving DecidableEq

/-- The `upload_file` endpoint of src/backend/main.py. `file_id` stands for
the freshly generated `str(uuid.uuid4())`, `size` for `len(content)`, and
`conv` for the outcome of `converter.process_conversion` (`Except.error e`
models an exception with message `e`). The returned pair is the new `tasks`
dict and the HTTP response. The size check precedes id generation and record
creation, exactly as in the code. -/
def upload_file (tasks : Tasks) (file_id file_name target_format : String)
    (size : Nat) (conv : Except String Unit) : Tasks × UploadResponse :=
  if MAX_UPLOAD < size then
    (tasks, UploadResponse.tooLarge "File too large (Max 4MB on Vercel Free Plan)")
  else
    let input_filename := file_id ++ "_" ++ file_name
    let output_filename := pathStem input_filename ++ "." ++ pyLower target_format
    match conv with
    | Except.ok _ =>
      (updateTasks tasks file_id
        { status := Status.completed, output_file := some output_filename,
          target_format := some target_format, error := none },
       UploadResponse.done file_id Status.completed)
    | Except.error e =>
      (updateTasks tasks file_id
        { status := Status.failed, output_file := none, target_format := none,
          error := some e },
       UploadResponse.convFailed e)

/-- The `get_status` endpoint of src/backend/main.py: returns the stored
record when the id is known, and otherwise the literal guess
`{"status": "completed"}` (a record whose only populated field is the
status). -/
def get_status (tasks : Tasks) (task_id : String) : TaskRec :=
  match tasks task_id with
  | some r => r
  | none =>
    { status := Status.completed, output_file := none, target_format := none,
      error := none }

/-- Result of the `download_file` endpoint of src/backend/main.py:
a served file, the 404 raised by the endpoint, or the 500 produced by the
global exception handler when `tasks[task_id]["output_file"]` raises
`KeyError` on a failed-task record. -/
inductive DownloadResult where
  | file (name : String)
  | notFound (detail : String)
  | serverError
deriving DecidableEq

/-- The `download_file` endpoint of src/backend/main.py. `dirFiles` is the
listing of DOWNLOAD_DIR in the order the glob enumerates it. The endpoint
first serves the first file whose name contains `task_id` as a substring
(the `*{task_id}*` glob); otherwise it falls back to the recorded
`output_file` when that file exists, and otherwise raises 404. -/
def download_file (tasks : Tasks) (task_id : String) (dirFiles : List String) :
    DownloadResult :=
  match dirFiles.filter (fun f => containsSubstr task_id f) with
  | f :: _ => DownloadResult.file f
  | [] =>
    match tasks task_id with
    | some r =>
      match r.output_file with
      | some o =>
        if dirFiles.contains o then DownloadResult.file o
        else DownloadResult.notFound "File not found or session expired"
      | none => DownloadResult.serverError
    | none => DownloadResult.notFound "File not found or session expired"

/-- Artifact ownership induced by the naming scheme of `upload_file`:
stored names are `f"{file_id}_{original_name}"` for inputs and
`f"{file_id}_{stem}.{fmt}"` for outputs, so an artifact belongs to the task
whose id followed by an underscore starts the file name. -/
def belongsTo (task_id file_name : String) : Bool :=
  startsWithL (task_id ++ "_").data file_name.data

/-- Pixel-format save parameters of an image-strategy invocation: whether the
image is first converted to RGB, the PIL format string passed to `save`, the
`quality` and `subsampling` keyword arguments if passed, and whether
`optimize` is passed. -/
structure ImageSaveSpec where
  forceRGB : Bool
  pilFormat : String
  quality : Option Nat
  subsampling : Option Nat
  optimize : Bool
deriving DecidableEq

/-- `FileConverter.convert_image_format` of src/backend/converter.py, reduced
to the save parameters it uses: jpg/jpeg targets are converted to RGB and
saved with `quality=95, subsampling=0`; every other target is saved in the
source's own mode with `optimize=True`. -/
def convert_image_format (format : String) : ImageSaveSpec :=
  if pyUpper format = "JPG" ∨ pyUpper format = "JPEG" then
    { forceRGB := true, pilFormat := "JPEG", quality := some 95,
      subsampling := some 0, optimize := false }
  else
    { forceRGB := false, pilFormat := format, quality := none,
      subsampling := none, optimize := true }

/-- Strategy selected by the consolidated `FileConverter.process_conversion`
of src/backend/main.py. The rational arguments of the PDF actions are the two
axes of the `fitz.Matrix` zoom used for rendering. -/
inductive MainAction where
  | imagePdf
  | imagePptx
  | imageSave (spec : ImageSaveSpec)
  | pdfRaster (zoomX zoomY : Rat)
  | pdfPptx (zoomX zoomY : Rat)
deriving DecidableEq

/-- The ValueError message raised by the src/backend/main.py dispatcher for
pairs it does not handle (Python interpolates the lowered extension and the
raw target format). -/
def mainUnsupportedMsg (input_ext target_format : String) : String :=
  "Conversion from " ++ input_ext ++ " to " ++ target_format ++
    " is not supported on cloud. Try Image or PDF files!"

/-- Dispatch logic of `FileConverter.process_conversion` in
src/backend/main.py: which strategy is invoked, with which parameters, for a
given lowered source extension and target format, under the module flags
HAS_FITZ and HAS_PPTX. An `Except.error` is the final `raise ValueError`;
an `Except.ok` is the strategy the code proceeds to execute. -/
def mainDispatch (hasFitz hasPptx : Bool) (input_ext target_format : String) :
    Except String MainAction :=
  let e := pyLower input_ext
  let t := pyLower target_format
  if e = ".png" ∨ e = ".jpg" ∨ e = ".jpeg" then
    if t = "pdf" then Except.ok MainAction.imagePdf
    else if t = "pptx" ∧ hasPptx = true then Except.ok MainAction.imagePptx
    else
      Except.ok (MainAction.imageSave
        { forceRGB := true,
          pilFormat := if t = "jpg" ∨ t = "jpeg" then "JPEG" else pyUpper target_format,
          quality := none, subsampling := none, optimize := false })
  else if e = ".pdf" ∧ hasFitz = true then
    if t = "png" ∨ t = "jpg" ∨ t = "jpeg" then
      Except.ok (MainAction.pdfRaster 2 2)
    else if t = "pptx" ∧ hasPptx = true then
      Except.ok (MainAction.pdfPptx 2 2)
    else Except.error (mainUnsupportedMsg e target_format)
  else Except.error (mainUnsupportedMsg e target_format)

/-- Strategy selected by `FileConverter.process_conversion` in
src/backend/converter.py. The rational arguments of the PDF actions are the
two axes of the `fitz.Matrix` zoom; `pdfToImages` also records the image
format string handed to the strategy. -/
inductive ConvAction where
  | pdfToDocx
  | docxToPdf
  | pptxToPdf
  | pdfToPptx (zoomX zoomY : Rat)
  | pdfToImages (zoomX zoomY : Rat) (fmt : String)
  | imageToPdf
  | imageToPptx
  | imageFormat (spec : ImageSaveSpec)
deriving DecidableEq

/-- The ValueError message raised by the src/backend/converter.py dispatcher
for pairs it does not handle. -/
def convUnsupportedMsg (input_ext target_format : String) : String :=
  "Unsupported conversion: " ++ input_ext ++ " to " ++ target_format

/-- Dispatch logic of `FileConverter.process_conversion` in
src/backend/converter.py, with the guard clauses that open the strategy
bodies (the HAS_PDF2DOCX check of `convert_pdf_to_docx`, the `os.name`
check of `convert_docx_to_pdf`, the HAS_COMTYPES check of
`convert_pptx_to_pdf`) inlined: those guards raise their descriptive
ImportError before any external capability is touched. An `Except.ok` is a
strategy whose capability call actually begins. -/
def converterDispatch (hasPdf2Docx isWindowsNt hasComtypes : Bool)
    (input_ext target_format : String) : Except String ConvAction :=
  let e := pyLower input_ext
  let t := pyLower target_format
  if e = ".pdf" then
    if t = "docx" then
      if hasPdf2Docx = true then Except.ok ConvAction.pdfToDocx
      else Except.error "PDF to DOCX conversion is not supported on this platform. Please run locally or use an alternative."
    else if t = "pptx" then Except.ok (ConvAction.pdfToPptx (300 / 72) (300 / 72))
    else if t = "png" ∨ t = "jpg" ∨ t = "jpeg" then
      Except.ok (ConvAction.pdfToImages (300 / 72) (300 / 72) t)
    else Except.error (convUnsupportedMsg e target_format)
  else if e = ".docx" then
    if t = "pdf" then
      if isWindowsNt = true then Except.ok ConvAction.docxToPdf
      else Except.error "DOCX to PDF conversion (High Quality) is not supported on this platform. Please run locally or use an alternative."
    else Except.error (convUnsupportedMsg e target_format)
  else if e = ".pptx" ∨ e = ".ppt" then
    if t = "pdf" then
      if hasComtypes = true then Except.ok ConvAction.pptxToPdf
      else Except.error "PPTX to PDF conversion (High Quality) is not supported on this platform. Please run locally or use an alternative."
    else Except.error (convUnsupportedMsg e target_format)
  else if e = ".png" ∨ e = ".jpg" ∨ e = ".jpeg" then
    if t = "pdf" then Except.ok ConvAction.imageToPdf
    else if t = "pptx" then Except.ok ConvAction.imageToPptx
    else Except.ok (ConvAction.imageFormat (convert_image_format (pyUpper target_format)))
  else Except.error (convUnsupportedMsg e target_format)

/-- Source kinds of the routing table in spec section 4.2. -/
inductive SrcKind where
  | pdf
  | wordDoc
  | slideDeck
  | rasterImage
deriving DecidableEq

/-- Target kinds of the routing table in spec section 4.2. -/
inductive TgtKind where
  | pdf
  | wordDoc
  | slideDeck
  | rasterImage
deriving DecidableEq

/-- Optional capabilities named by the routing table in spec section 4.2. -/
inductive Cap where
  | officeDocBuilder
  | rasterizer
  | officeBridge
  | slideBuilder
deriving DecidableEq

/-- Source kind of a (lowered) file extension, per the kinds of spec
section 4.2 and the extensions the code recognises. -/
def srcKindOf (s : String) : Option SrcKind :=
  if s = ".pdf" then some SrcKind.pdf
  else if s = ".docx" then some SrcKind.wordDoc
  else if s = ".pptx" then some SrcKind.slideDeck
  else if s = ".ppt" then some SrcKind.slideDeck
  else if s = ".png" then some SrcKind.rasterImage
  else if s = ".jpg" then some SrcKind.rasterImage
  else if s = ".jpeg" then some SrcKind.rasterImage
  else none

/-- Target kind of a (lowered) target format string, per the kinds of spec
section 4.2 and the formats the code recognises. -/
def tgtKindOf (s : String) : Option TgtKind :=
  if s = "pdf" then some TgtKind.pdf
  else if s = "docx" then some TgtKind.wordDoc
  else if s = "pptx" then some TgtKind.slideDeck
  else if s = "png" then some TgtKind.rasterImage
  else if s = "jpg" then some TgtKind.rasterImage
  else if s = "jpeg" then some TgtKind.rasterImage
  else none

/-- Modelled from the spec: the routing table of spec section 4.2, used as
the refinement reference for claim C4. `none` means the pair has no entry;
`some none` an entry requiring no capability; `some (some c)` an entry
requiring capability `c`. -/
def specTable : SrcKind → TgtKind → Option (Option Cap)
  | SrcKind.pdf, TgtKind.wordDoc => some (some Cap.officeDocBuilder)
  | SrcKind.pdf, TgtKind.slideDeck => some (some Cap.rasterizer)
  | SrcKind.pdf, TgtKind.rasterImage => some (some Cap.rasterizer)
  | SrcKind.wordDoc, TgtKind.pdf => some (some Cap.officeBridge)
  | SrcKind.slideDeck, TgtKind.pdf => some (some Cap.officeBridge)
  | SrcKind.rasterImage, TgtKind.pdf => some none
  | SrcKind.rasterImage, TgtKind.slideDeck => some (some Cap.slideBuilder)
  | SrcKind.rasterImage, TgtKind.rasterImage => some none
  | _, _ => none

/-- Whether the spec routing table has any entry for a raw (extension,
target) pair. -/
def specPairExists (ext target_format : String) : Bool :=
  match srcKindOf (pyLower ext), tgtKindOf (pyLower target_format) with
  | some s, some g => (specTable s g).isSome
  | _, _ => false

/-- Whether the spec routing table supports a raw (extension, target) pair
under a capability valuation: an entry exists and its required capability, if
any, is present. -/
def specSupported (caps : Cap → Bool) (ext target_format : String) : Bool :=
  match srcKindOf (pyLower ext), tgtKindOf (pyLower target_format) with
  | some s, some g =>
    match specTable s g with
    | none => false
    | some none => true
    | some (some c) => caps c
  | _, _ => false

/-- Capability valuation realised by src/backend/main.py: the rasterizer is
fitz, the slide builder is python-pptx, and neither an office-document
builder nor an office bridge exists in that module. -/
def mainCaps (hasFitz hasPptx : Bool) : Cap → Bool
  | Cap.officeDocBuilder => false
  | Cap.rasterizer => hasFitz
  | Cap.officeBridge => false
  | Cap.slideBuilder => hasPptx

/-- Boolean success test for an `Except` outcome. -/
def isOkB {α : Type} (x : Except String α) : Bool :=
  match x with
  | Except.ok _ => true
  | Except.error _ => false

/-- Boolean test for the 413 rejection response of `upload_file`. -/
def isTooLargeResp (r : UploadResponse) : Bool :=
  match r with
  | UploadResponse.tooLarge _ => true
  | _ => false

/-- Availability of each Python library the two modules try to import.
A field is true when `import` of that library would succeed in the
environment. -/
structure PyEnv where
  fitzLib : Bool
  pptxLib : Bool
  pdf2docxLib : Bool
  comtypesLib : Bool
  docx2pdfLib : Bool
deriving DecidableEq

/-- Module-level flags computed by src/backend/main.py at import time. -/
structure MainModuleState where
  HAS_FITZ : Bool
  HAS_PPTX : Bool
deriving DecidableEq

/-- Module-level flags computed by src/backend/converter.py at import time. -/
structure ConverterModuleState where
  HAS_PDF2DOCX : Bool
  HAS_COMTYPES : Bool
deriving DecidableEq

/-- Import-time initialization of src/backend/main.py: both optional imports
(fitz, pptx) are wrapped in try/except ImportError, so initialization always
succeeds and the flags record availability. -/
def mainModuleInit (env : PyEnv) : Except String MainModuleState :=
  Except.ok { HAS_FITZ := env.fitzLib, HAS_PPTX := env.pptxLib }

/-- Import-time initialization of src/backend/converter.py, in source order:
the pdf2docx import is guarded by try/except, but the docx2pdf, pptx and
fitz imports are unguarded and abort the module load with ImportError when
the library is absent; the comtypes import is guarded again. -/
def converterModuleInit (env : PyEnv) : Except String ConverterModuleState :=
  let has_pdf2docx := env.pdf2docxLib
  if env.docx2pdfLib = false then Except.error "ImportError: docx2pdf"
  else if env.pptxLib = false then Except.error "ImportError: pptx"
  else if env.fitzLib = false then Except.error "ImportError: fitz"
  else
    let has_comtypes := env.comtypesLib
    Except.ok { HAS_PDF2DOCX := has_pdf2docx, HAS_COMTYPES := has_comtypes }

/-- Operations of the serving app that touch the `tasks` registry: an upload
(with its fresh uuid, payload size and conversion outcome), a status query
and a download. -/
inductive AppOp where
  | upload (file_id file_name target_format : String) (size : Nat)
      (conv : Except String Unit)
  | statusQuery (task_id : String)
  | download (task_id : String) (dirFiles : List String)

/-- Effect of one operation on the `tasks` registry: only `upload_file`
writes to the dict; the status and download endpoints never mutate it. -/
def step (t : Tasks) : AppOp → Tasks
  | AppOp.upload fid fn tgt size conv => (upload_file t fid fn tgt size conv).1
  | AppOp.statusQuery _ => t
  | AppOp.download _ _ => t

/-- Freshness of one operation with respect to the current registry: an
upload's uuid4 is never an id already present (uuid uniqueness); other
operations are unconstrained. -/
def freshHead (t : Tasks) : AppOp → Bool
  | AppOp.upload fid _ _ _ _ => (t fid).isNone
  | AppOp.statusQuery _ => true
  | AppOp.download _ _ => true

/-- Freshness of a whole operation sequence: every upload along the run uses
an id unused at that point. -/
def freshFrom (t : Tasks) : List AppOp → Bool
  | [] => true
  | op :: ops => freshHead t op && freshFrom (step t op) ops

/-- Statuses recorded for task `id` after each point of an operation run
(initial state included), skipping the points where no record exists yet. -/
def rawStatuses (id : String) (t : Tasks) (ops : List AppOp) : List Status :=
  (List.scanl step t ops).filterMap (fun s => Option.map TaskRec.status (s id))

/-- Collapse consecutive duplicates, turning the sampled status list into the
sequence of observable status transitions. -/
def dedupConsec : List Status → List Status
  | [] => []
  | [a] => [a]
  | a :: b :: rest =>
    if a = b then dedupConsec (b :: rest) else a :: dedupConsec (b :: rest)

/-- The observable status sequence of task `id` along an operation run. -/
def statusHistory (id : String) (t : Tasks) (ops : List AppOp) : List Status :=
  dedupConsec (rawStatuses id t ops)

/-- The status-sequence shape asserted by claim C1: an initial segment of
pending, processing, completed or of pending, processing, failed. -/
def admissibleC1 (l : List Status) : Bool :=
  startsWithL l [Status.pending, Status.processing, Status.completed] ||
    startsWithL l [Status.pending, Status.processing, Status.failed]

/-- Every record stored in the registry is in a terminal state. -/
def terminalOnly (t : Tasks) : Prop :=
  ∀ id r, t id = some r → r.status = Status.completed ∨ r.status = Status.failed

/-- A string equal to one of the three raster-image extensions is classified
as a raster-image source. -/
theorem srcKindOf_image_of (s : String)
    (h : s = ".png" ∨ s = ".jpg" ∨ s = ".jpeg") :
    srcKindOf s = some SrcKind.rasterImage := by
  rcases h with h | h | h <;> subst h <;> rfl

/-- Only the three raster-image extensions are classified as raster-image
sources. -/
theorem srcKindOf_rasterImage (s : String)
    (h : srcKindOf s = some SrcKind.rasterImage) :
    s = ".png" ∨ s = ".jpg" ∨ s = ".jpeg" := by
  unfold srcKindOf at h
  split_ifs at h <;> simp_all

/-- Claim C2, counterexample. The claim says `get_status` answers unknown
identifiers with a not-found outcome distinct from every real status and
never reports a status for them; the code instead answers the status record
`{"status": "completed"}`, so the formalised claim (an unknown id never
yields a completed status) is false, witnessed by the empty registry and the
id "missing". -/
theorem C2_counterexample :
    ¬ ∀ (tasks : Tasks) (id : String), tasks id = none →
        (get_status tasks id).status ≠ Status.completed :=
  fun h => h emptyTasks "missing" rfl rfl

/-- Claim C2, amended: a status query for an identifier with no record in the
registry returns the guessed record whose status is "completed" and whose
other fields are absent — a status report, not a not-found outcome; this
guess is at least distinct from "pending". -/
theorem C2_amended (tasks : Tasks) (task_id : String)
    (h : tasks task_id = none) :
    get_status tasks task_id =
      { status := Status.completed, output_file := none, target_format := none,
        error := none } ∧
    Status.completed ≠ Status.pending := by
  constructor
  · simp [get_status, h]
  · decide

/-- Witness for `C2_amended` at the empty registry and id "missing". -/
theorem C2_amended_witness :
    emptyTasks "missing" = none ∧
    (get_status emptyTasks "missing" =
        { status := Status.completed, output_file := none,
          target_format := none, error := none } ∧
      Status.completed ≠ Status.pending) :=
  ⟨rfl, C2_amended emptyTasks "missing" rfl⟩

/-- Claim C3, counterexample. Task id "a" is a proper substring of task id
"ab"; the artifact "ab_x.pdf" belongs to task "ab" and not to task "a", yet
a download request for task "a" serves it, because the endpoint matches by
substring glob rather than exact id. -/
theorem C3_counterexample :
    ("a" : String) ≠ "ab" ∧ containsSubstr "a" "ab" = true ∧
    belongsTo "ab" "ab_x.pdf" = true ∧ belongsTo "a" "ab_x.pdf" = false ∧
    download_file emptyTasks "a" ["ab_x.pdf"] = DownloadResult.file "ab_x.pdf" := by
  decide

/-- Claim C3, amended: retrieval matches artifacts by substring containment
of the task identifier, not exactly — any file it serves either contains the
requested identifier as a substring (first match of the `*{task_id}*` glob,
which may be another task's artifact) or is the task's own recorded output
file; the code contains no reclaim, so no deletion ever occurs. -/
theorem C3_amended (tasks : Tasks) (task_id f : String) (dirFiles : List String)
    (h : download_file tasks task_id dirFiles = DownloadResult.file f) :
    containsSubstr task_id f = true ∨
      ∃ r, tasks task_id = some r ∧ r.output_file = some f := by
  unfold download_file at h
  split at h
  next g rest hfil =>
    have hg : g ∈ dirFiles.filter (fun x => containsSubstr task_id x) := by
      rw [hfil]; exact List.mem_cons_self _ _
    have hcg := (List.mem_filter.mp hg).2
    injection h with hgf
    rw [← hgf]
    exact Or.inl hcg
  next hfil =>
    split at h
    next r htask =>
      split at h
      next o hout =>
        split at h
        next hc =>
          injection h with hof
          exact Or.inr ⟨r, htask, by rw [hout, hof]⟩
        next hc => exact absurd h (by simp)
      next hout => exact absurd h (by simp)
    next htask => exact absurd h (by simp)

/-- Witness for `C3_amended`: a served file whose name contains the id. -/
theorem C3_amended_witness :
    download_file emptyTasks "ab" ["ab_x.pdf"] = DownloadResult.file "ab_x.pdf" ∧
    (containsSubstr "ab" "ab_x.pdf" = true ∨
      ∃ r, emptyTasks "ab" = some r ∧ r.output_file = some "ab_x.pdf") :=
  ⟨by decide, C3_amended emptyTasks "ab" "ab_x.pdf" ["ab_x.pdf"] (by decide)⟩

/-- Claim C5, confirmed: when the conversion raises with message `e` on a
payload within the size limit, `upload_file` stores a failed record for the
new task whose error string is `e`, answers with the 500 JSON response
(the exception is swallowed, not propagated), and leaves the record of every
other task id unchanged. -/
theorem C5_confirmed (tasks : Tasks) (file_id file_name target_format e : String)
    (size : Nat) (hsize : size ≤ MAX_UPLOAD) :
    (upload_file tasks file_id file_name target_format size (Except.error e)).1 file_id =
      some { status := Status.failed, output_file := none, target_format := none,
             error := some e } ∧
    (upload_file tasks file_id file_name target_format size (Except.error e)).2 =
      UploadResponse.convFailed e ∧
    ∀ j, j ≠ file_id →
      (upload_file tasks file_id file_name target_format size (Except.error e)).1 j = tasks j := by
  have hlt : ¬ MAX_UPLOAD < size := Nat.not_lt.mpr hsize
  refine ⟨?_, ?_, ?_⟩
  · simp [upload_file, hlt, updateTasks]
  · simp [upload_file, hlt]
  · intro j hj
    simp [upload_file, hlt, updateTasks, hj]

/-- Witness for `C5_confirmed` with a concrete failing conversion. -/
theorem C5_confirmed_witness :
    0 ≤ MAX_UPLOAD ∧
    (upload_file emptyTasks "tid" "doc.png" "pdf" 0 (Except.error "boom")).1 "tid" =
      some { status := Status.failed, output_file := none, target_format := none,
             error := some "boom" } ∧
    (upload_file emptyTasks "tid" "doc.png" "pdf" 0 (Except.error "boom")).2 =
      UploadResponse.convFailed "boom" ∧
    (upload_file emptyTasks "tid" "doc.png" "pdf" 0 (Except.error "boom")).1 "other" =
      emptyTasks "other" :=
  ⟨by decide,
   (C5_confirmed emptyTasks "tid" "doc.png" "pdf" "boom" 0 (by decide)).1,
   (C5_confirmed emptyTasks "tid" "doc.png" "pdf" "boom" 0 (by decide)).2.1,
   (C5_confirmed emptyTasks "tid" "doc.png" "pdf" "boom" 0 (by decide)).2.2 "other" (by decide)⟩

/-- Claim C6, confirmed: an oversized payload is rejected with the 413
response before any task exists — the registry is returned unchanged and the
response carries no task identifier (the `tooLarge` response has no id
field). -/
theorem C6_confirmed (tasks : Tasks) (file_id file_name target_format : String)
    (conv : Except String Unit) (size : Nat) (hsize : MAX_UPLOAD < size) :
    upload_file tasks file_id file_name target_format size conv =
      (tasks, UploadResponse.tooLarge "File too large (Max 4MB on Vercel Free Plan)") := by
  simp [upload_file, hsize]

/-- Witness for `C6_confirmed` one byte above the ceiling. -/
theorem C6_confirmed_witness :
    MAX_UPLOAD < 4 * 1024 * 1024 + 1 ∧
    upload_file emptyTasks "tid" "doc.png" "pdf" (4 * 1024 * 1024 + 1) (Except.ok ()) =
      (emptyTasks, UploadResponse.tooLarge "File too large (Max 4MB on Vercel Free Plan)") :=
  ⟨by decide,
   C6_confirmed emptyTasks "tid" "doc.png" "pdf" (Except.ok ()) (4 * 1024 * 1024 + 1) (by decide)⟩

/-- Claim C7, counterexample. The claim says module initialization of both
backend modules succeeds in every environment that lacks an optional
capability; src/backend/converter.py imports the rasterizer (fitz)
unguarded, so the environment lacking only fitz aborts its initialization
with ImportError. -/
theorem C7_counterexample :
    ¬ ∀ env : PyEnv,
        isOkB (mainModuleInit env) = true ∧ isOkB (converterModuleInit env) = true :=
  fun h =>
    absurd (h (PyEnv.mk false true true true true)).2 (by decide)

/-- Claim C7, amended: src/backend/main.py guards its two optional imports
(fitz, pptx) and always initializes, recording their availability;
src/backend/converter.py guards only the pdf2docx and comtypes probes — it
initializes (recording those two flags) only when docx2pdf, pptx and fitz
are all importable, and a missing rasterizer or slide builder aborts its
load. -/
theorem C7_amended (env : PyEnv) (h1 : env.docx2pdfLib = true)
    (h2 : env.pptxLib = true) (h3 : env.fitzLib = true) :
    mainModuleInit env =
      Except.ok { HAS_FITZ := env.fitzLib, HAS_PPTX := env.pptxLib } ∧
    converterModuleInit env =
      Except.ok { HAS_PDF2DOCX := env.pdf2docxLib, HAS_COMTYPES := env.comtypesLib } := by
  constructor
  · rfl
  · simp [converterModuleInit, h1, h2, h3]

/-- Witness for `C7_amended` in the fully equipped environment. -/
theorem C7_amended_witness :
    (mainModuleInit (PyEnv.mk true true false false true) =
      Except.ok { HAS_FITZ := true, HAS_PPTX := true }) ∧
    (converterModuleInit (PyEnv.mk true true false false true) =
      Except.ok { HAS_PDF2DOCX := false, HAS_COMTYPES := false }) :=
  C7_amended (PyEnv.mk true true false false true) rfl rfl rfl

/-- Claim C8, counterexample. The claim says every PDF-to-raster and
PDF-to-slide-deck conversion renders at the zoom 300/72 on both axes; the
consolidated converter of src/backend/main.py renders PDF pages with
`fitz.Matrix(2, 2)`, and 2 is not 300/72. -/
theorem C8_counterexample :
    mainDispatch true true ".pdf" "png" = Except.ok (MainAction.pdfRaster 2 2) ∧
    ¬ ((2 : Rat) = 300 / 72) :=
  ⟨rfl, by norm_num⟩

/-- Claim C8, amended: the strategies of src/backend/converter.py render PDF
pages at zoom 300/72 on both axes (about 300 DPI against the native 72-DPI
space), both for image output and slide-deck output; the consolidated
converter of src/backend/main.py instead uses the fixed zoom 2 on both axes
(about 144 DPI) for both conversions. -/
theorem C8_amended (hasPdf2Docx isWindowsNt hasComtypes hasPptx : Bool)
    (t : String) (ht : t = "png" ∨ t = "jpg" ∨ t = "jpeg") :
    converterDispatch hasPdf2Docx isWindowsNt hasComtypes ".pdf" "pptx" =
      Except.ok (ConvAction.pdfToPptx (300 / 72) (300 / 72)) ∧
    converterDispatch hasPdf2Docx isWindowsNt hasComtypes ".pdf" t =
      Except.ok (ConvAction.pdfToImages (300 / 72) (300 / 72) t) ∧
    mainDispatch true hasPptx ".pdf" t = Except.ok (MainAction.pdfRaster 2 2) ∧
    mainDispatch true true ".pdf" "pptx" = Except.ok (MainAction.pdfPptx 2 2) := by
  refine ⟨rfl, ?_, ?_, rfl⟩ <;> rcases ht with h | h | h <;> subst h <;> rfl

/-- Witness for `C8_amended` at target "png". -/
theorem C8_amended_witness :
    (("png" : String) = "png" ∨ ("png" : String) = "jpg" ∨ ("png" : String) = "jpeg") ∧
    (converterDispatch true true true ".pdf" "pptx" =
        Except.ok (ConvAction.pdfToPptx (300 / 72) (300 / 72)) ∧
      converterDispatch true true true ".pdf" "png" =
        Except.ok (ConvAction.pdfToImages (300 / 72) (300 / 72) "png") ∧
      mainDispatch true true ".pdf" "png" = Except.ok (MainAction.pdfRaster 2 2) ∧
      mainDispatch true true ".pdf" "pptx" = Except.ok (MainAction.pdfPptx 2 2)) :=
  ⟨Or.inl rfl, C8_amended true true true true "png" (Or.inl rfl)⟩

/-- Claim C9, counterexample. The claim says lossy-target image conversions
are saved with the fixed quality setting and chroma subsampling disabled; the
png-to-jpg path of src/backend/main.py saves with PIL defaults — no quality
and no subsampling argument at all. -/
theorem C9_counterexample :
    mainDispatch true true ".png" "jpg" =
      Except.ok (MainAction.imageSave
        { forceRGB := true, pilFormat := "JPEG", quality := none,
          subsampling := none, optimize := false }) ∧
    (none : Option Nat) ≠ some 95 :=
  ⟨rfl, by decide⟩

/-- Claim C9, amended: the `convert_image_format` strategy of
src/backend/converter.py does satisfy the claim — jpg/jpeg targets are
flattened to RGB and saved with quality 95 and subsampling 0, all other
targets keep the source's color mode; the consolidated image path of
src/backend/main.py instead flattens every image to RGB and saves with
library-default quality and subsampling for all targets, including
jpg/jpeg. -/
theorem C9_amended (f ext t : String) (hasFitz hasPptx : Bool) :
    ((pyUpper f = "JPG" ∨ pyUpper f = "JPEG") →
      convert_image_format f =
        { forceRGB := true, pilFormat := "JPEG", quality := some 95,
          subsampling := some 0, optimize := false }) ∧
    (pyUpper f ≠ "JPG" → pyUpper f ≠ "JPEG" →
      convert_image_format f =
        { forceRGB := false, pilFormat := f, quality := none,
          subsampling := none, optimize := true }) ∧
    (∀ spec, srcKindOf (pyLower ext) = some SrcKind.rasterImage →
      mainDispatch hasFitz hasPptx ext t = Except.ok (MainAction.imageSave spec) →
      spec.forceRGB = true ∧ spec.quality = none ∧ spec.subsampling = none) := by
  refine ⟨?_, ?_, ?_⟩
  · intro h
    simp [convert_image_format, h]
  · intro h1 h2
    simp [convert_image_format, h1, h2]
  · intro spec himg heq
    have hdisj := srcKindOf_rasterImage (pyLower ext) himg
    simp only [mainDispatch] at heq
    rw [if_pos hdisj] at heq
    by_cases h1 : pyLower t = "pdf"
    · rw [if_pos h1] at heq
      exact absurd heq (by simp)
    · rw [if_neg h1] at heq
      by_cases h2 : pyLower t = "pptx" ∧ hasPptx = true
      · rw [if_pos h2] at heq
        exact absurd heq (by simp)
      · rw [if_neg h2] at heq
        have hspec := (Except.ok.inj heq)
        have hspec2 := MainAction.imageSave.inj hspec
        rw [← hspec2]
        exact ⟨rfl, rfl, rfl⟩

/-- Witness for `C9_amended`: the jpg branch of the converter.py strategy and
a concrete main.py image save. -/
theorem C9_amended_witness :
    (pyUpper "jpg" = "JPG" ∨ pyUpper "jpg" = "JPEG") ∧
    convert_image_format "jpg" =
      { forceRGB := true, pilFormat := "JPEG", quality := some 95,
        subsampling := some 0, optimize := false } ∧
    (ImageSaveSpec.mk true "JPEG" none none false).forceRGB = true ∧
    (ImageSaveSpec.mk true "JPEG" none none false).quality = none ∧
    (ImageSaveSpec.mk true "JPEG" none none false).subsampling = none :=
  ⟨Or.inl rfl,
   (C9_amended "jpg" ".png" "jpg" true true).1 (Or.inl rfl),
   (C9_amended "jpg" ".png" "jpg" true true).2.2
     (ImageSaveSpec.mk true "JPEG" none none false) (by decide) rfl⟩

/-- Claim C10, confirmed: the size limit of `upload_file` is strict — a
payload of exactly 4*1024*1024 bytes is accepted (a task record is created
for its fresh id and the response is not the 413 rejection), and the 413
rejection occurs exactly for payloads strictly larger than 4*1024*1024
bytes. -/
theorem C10_confirmed (tasks : Tasks) (file_id file_name target_format : String)
    (conv : Except String Unit) (size : Nat) :
    ((upload_file tasks file_id file_name target_format (4 * 1024 * 1024) conv).1 file_id).isSome = true ∧
    isTooLargeResp (upload_file tasks file_id file_name target_format (4 * 1024 * 1024) conv).2 = false ∧
    (isTooLargeResp (upload_file tasks file_id file_name target_format size conv).2 = true ↔
      4 * 1024 * 1024 < size) := by
  have hle : ¬ MAX_UPLOAD < 4 * 1024 * 1024 := by decide
  refine ⟨?_, ?_, ?_⟩
  · cases conv <;> simp [upload_file, hle, updateTasks]
  · cases conv <;> simp [upload_file, hle, isTooLargeResp]
  · by_cases hlt : 4 * 1024 * 1024 < size
    · have hlt2 : MAX_UPLOAD < size := by simpa [MAX_UPLOAD] using hlt
      simp [upload_file, hlt2, isTooLargeResp, hlt]
    · have hlt2 : ¬ MAX_UPLOAD < size := by simpa [MAX_UPLOAD] using hlt
      cases conv <;> simp [upload_file, hlt2, isTooLargeResp, hlt]

/-- Claim C4, counterexample. The pair (".png", "docx") has no entry in the
spec routing table (raster image to word-processor document), yet neither
dispatcher reports it Unsupported: both substitute the generic image-format
strategy, handing it the uppercased target string. -/
theorem C4_counterexample :
    specSupported (mainCaps true true) ".png" "docx" = false ∧
    specPairExists ".png" "docx" = false ∧
    mainDispatch true true ".png" "docx" =
      Except.ok (MainAction.imageSave (ImageSaveSpec.mk true "DOCX" none none false)) ∧
    converterDispatch true true true ".png" "docx" =
      Except.ok (ConvAction.imageFormat (ImageSaveSpec.mk false "DOCX" none none true)) :=
  ⟨by decide, by decide, rfl, rfl⟩

/-- Claim C4, amended: restricted to non-raster-image source extensions the
claim holds — for the src/backend/main.py dispatcher, every pair the spec
table leaves unsupported under that module's capabilities (no office
builder/bridge, fitz as rasterizer, pptx as slide builder) ends in the
descriptive ValueError with no strategy invoked; for the
src/backend/converter.py dispatcher the same holds for pairs with no table
entry, and each capability-guarded pair (pdf to docx without pdf2docx, docx
to pdf off Windows, pptx/ppt to pdf without comtypes) fails its guard before
any capability call. Raster-image sources are excluded: for them the code
falls through to the image-format strategy instead (see the
counterexample). -/
theorem C4_amended (hasFitz hasPptx hasPdf2Docx isWindowsNt hasComtypes : Bool)
    (ext t : String) (hImg : srcKindOf (pyLower ext) ≠ some SrcKind.rasterImage) :
    (specSupported (mainCaps hasFitz hasPptx) ext t = false →
      mainDispatch hasFitz hasPptx ext t =
        Except.error (mainUnsupportedMsg (pyLower ext) t)) ∧
    (specPairExists ext t = false →
      converterDispatch hasPdf2Docx isWindowsNt hasComtypes ext t =
        Except.error (convUnsupportedMsg (pyLower ext) t)) ∧
    (hasPdf2Docx = false → pyLower ext = ".pdf" → pyLower t = "docx" →
      isOkB (converterDispatch hasPdf2Docx isWindowsNt hasComtypes ext t) = false) ∧
    (isWindowsNt = false → pyLower ext = ".docx" → pyLower t = "pdf" →
      isOkB (converterDispatch hasPdf2Docx isWindowsNt hasComtypes ext t) = false) ∧
    (hasComtypes = false → (pyLower ext = ".pptx" ∨ pyLower ext = ".ppt") →
      pyLower t = "pdf" →
      isOkB (converterDispatch hasPdf2Docx isWindowsNt hasComtypes ext t) = false) := by
  refine ⟨?_, ?_, ?_, ?_, ?_⟩
  · intro hU
    by_cases h1 : pyLower ext = ".png" ∨ pyLower ext = ".jpg" ∨ pyLower ext = ".jpeg"
    · exact absurd (srcKindOf_image_of _ h1) hImg
    · by_cases h2 : pyLower ext = ".pdf" ∧ hasFitz = true
      · by_cases h3 : pyLower t = "png" ∨ pyLower t = "jpg" ∨ pyLower t = "jpeg"
        · exfalso
          rcases h3 with h3 | h3 | h3 <;>
            simp [specSupported, srcKindOf, tgtKindOf, specTable, mainCaps,
              h2.1, h2.2, h3] at hU
        · by_cases h4 : pyLower t = "pptx" ∧ hasPptx = true
          · exfalso
            simp [specSupported, srcKindOf, tgtKindOf, specTable, mainCaps,
              h2.1, h2.2, h4.1] at hU
          · simp only [mainDispatch]
            rw [if_neg h1, if_pos h2, if_neg h3, if_neg h4]
      · simp only [mainDispatch]
        rw [if_neg h1, if_neg h2]
  · intro hNE
    by_cases h1 : pyLower ext = ".pdf"
    · by_cases h2 : pyLower t = "docx"
      · exfalso; simp [specPairExists, srcKindOf, tgtKindOf, specTable, h1, h2] at hNE
      · by_cases h3 : pyLower t = "pptx"
        · exfalso; simp [specPairExists, srcKindOf, tgtKindOf, specTable, h1, h3] at hNE
        · by_cases h4 : pyLower t = "png" ∨ pyLower t = "jpg" ∨ pyLower t = "jpeg"
          · exfalso
            rcases h4 with h4 | h4 | h4 <;>
              simp [specPairExists, srcKindOf, tgtKindOf, specTable, h1, h4] at hNE
          · simp only [converterDispatch]
            rw [if_pos h1, if_neg h2, if_neg h3, if_neg h4]
    · by_cases h5 : pyLower ext = ".docx"
      · by_cases h6 : pyLower t = "pdf"
        · exfalso; simp [specPairExists, srcKindOf, tgtKindOf, specTable, h5, h6] at hNE
        · simp only [converterDispatch]
          rw [if_neg h1, if_pos h5, if_neg h6]
      · by_cases h7 : pyLower ext = ".pptx" ∨ pyLower ext = ".ppt"
        · by_cases h8 : pyLower t = "pdf"
          · exfalso
            rcases h7 with h7 | h7 <;>
              simp [specPairExists, srcKindOf, tgtKindOf, specTable, h7, h8] at hNE
          · simp only [converterDispatch]
            rw [if_neg h1, if_neg h5, if_pos h7, if_neg h8]
        · by_cases h9 : pyLower ext = ".png" ∨ pyLower ext = ".jpg" ∨ pyLower ext = ".jpeg"
          · exact absurd (srcKindOf_image_of _ h9) hImg
          · simp only [converterDispatch]
            rw [if_neg h1, if_neg h5, if_neg h7, if_neg h9]
  · intro hc h1 h2
    simp [converterDispatch, h1, h2, hc, isOkB]
  · intro hc h1 h2
    simp [converterDispatch, h1, h2, hc, isOkB]
  · intro hc hdisj h2
    rcases hdisj with h1 | h1 <;> simp [converterDispatch, h1, h2, hc, isOkB]

/-- Witness for `C4_amended`: the docx-to-pdf pair, unsupported in main.py
(no office bridge), and the pdf-to-pdf pair, absent from the table, rejected
by converter.py. -/
theorem C4_amended_witness :
    (srcKindOf (pyLower ".docx") ≠ some SrcKind.rasterImage) ∧
    specSupported (mainCaps true true) ".docx" "pdf" = false ∧
    mainDispatch true true ".docx" "pdf" =
      Except.error (mainUnsupportedMsg (pyLower ".docx") "pdf") ∧
    specPairExists ".pdf" "pdf" = false ∧
    converterDispatch true true true ".pdf" "pdf" =
      Except.error (convUnsupportedMsg (pyLower ".pdf") "pdf") :=
  ⟨by decide, by decide,
   (C4_amended true true true true true ".docx" "pdf" (by decide)).1 (by decide),
   by decide,
   (C4_amended true true true true true ".pdf" "pdf" (by decide)).2.1 (by decide)⟩

/-- A stored record survives any operation whose upload id (if any) is fresh:
the status and download endpoints never write, and a fresh upload writes only
under its own new id. -/
theorem step_preserves (t : Tasks) (op : AppOp) (id : String) (r : TaskRec)
    (hid : t id = some r) (hok : freshHead t op = true) :
    step t op id = some r := by
  cases op with
  | statusQuery _ => exact hid
  | download _ _ => exact hid
  | upload fid fn tgt size conv =>
    have hne : id ≠ fid := by
      intro he
      rw [← he] at hok
      simp [freshHead, hid] at hok
    simp only [step, upload_file]
    split
    · exact hid
    · cases conv with
      | ok _ => simp [updateTasks, hne, hid]
      | error e => simp [updateTasks, hne, hid]

/-- Every record an operation can store is terminal: uploads write only
completed or failed records, and nothing else writes. -/
theorem step_terminalOnly (t : Tasks) (op : AppOp) (h : terminalOnly t) :
    terminalOnly (step t op) := by
  cases op with
  | statusQuery _ => exact h
  | download _ _ => exact h
  | upload fid fn tgt size conv =>
    intro id r hr
    simp only [step, upload_file] at hr
    split at hr
    · exact h id r hr
    · cases conv with
      | ok _ =>
        simp only [updateTasks] at hr
        by_cases he : id = fid
        · rw [if_pos he] at hr
          have := Option.some.inj hr
          rw [← this]
          exact Or.inl rfl
        · rw [if_neg he] at hr
          exact h id r hr
      | error e =>
        simp only [updateTasks] at hr
        by_cases he : id = fid
        · rw [if_pos he] at hr
          have := Option.some.inj hr
          rw [← this]
          exact Or.inr rfl
        · rw [if_neg he] at hr
          exact h id r hr

/-- Unfolding lemma: the status samples of a run starting at a state that
already holds a record for `id` begin with that record's status. -/
theorem rawStatuses_cons_some (id : String) (t : Tasks) (op : AppOp)
    (ops : List AppOp) (r : TaskRec) (hid : t id = some r) :
    rawStatuses id t (op :: ops) = r.status :: rawStatuses id (step t op) ops := by
  simp [rawStatuses, List.scanl, hid]

/-- Unfolding lemma: the status samples of a run starting at a state with no
record for `id` are those of the rest of the run. -/
theorem rawStatuses_cons_none (id : String) (t : Tasks) (op : AppOp)
    (ops : List AppOp) (hid : t id = none) :
    rawStatuses id t (op :: ops) = rawStatuses id (step t op) ops := by
  simp [rawStatuses, List.scanl, hid]

/-- Once a record exists, a fresh run samples its status unchanged at every
point: the record is never modified again. -/
theorem rawStatuses_const (id : String) (r : TaskRec) :
    ∀ (ops : List AppOp) (t : Tasks), t id = some r → freshFrom t ops = true →
      rawStatuses id t ops = List.replicate (ops.length + 1) r.status
  | [], t, hid, _ => by simp [rawStatuses, List.scanl, hid, List.replicate]
  | op :: ops, t, hid, hf => by
    rw [freshFrom, Bool.and_eq_true] at hf
    have hstep := step_preserves t op id r hid hf.1
    have ih := rawStatuses_const id r ops (step t op) hstep hf.2
    rw [rawStatuses_cons_some id t op ops r hid, ih]
    simp [List.replicate]

/-- Along any fresh run from a terminal-only state, the status samples of a
task form a constant list of one terminal status (or no samples at all). -/
theorem rawStatuses_shape (id : String) :
    ∀ (ops : List AppOp) (t : Tasks), terminalOnly t → freshFrom t ops = true →
      ∃ n s, rawStatuses id t ops = List.replicate n s ∧
        (n ≠ 0 → s = Status.completed ∨ s = Status.failed)
  | [], t, hterm, _ => by
    cases hid : t id with
    | none =>
      exact ⟨0, Status.completed, by simp [rawStatuses, List.scanl, hid], by simp⟩
    | some r =>
      exact ⟨1, r.status, by simp [rawStatuses, List.scanl, hid, List.replicate],
        fun _ => hterm id r hid⟩
  | op :: ops, t, hterm, hf => by
    have hf' := hf
    rw [freshFrom, Bool.and_eq_true] at hf'
    cases hid : t id with
    | some r =>
      exact ⟨(op :: ops).length + 1, r.status,
        rawStatuses_const id r (op :: ops) t hid hf,
        fun _ => hterm id r hid⟩
    | none =>
      rw [rawStatuses_cons_none id t op ops hid]
      exact rawStatuses_shape id ops (step t op) (step_terminalOnly t op hterm) hf'.2

/-- Collapsing a constant status list yields the empty sequence or the single
status. -/
theorem dedupConsec_replicate :
    ∀ (n : Nat) (s : Status),
      dedupConsec (List.replicate n s) = if n = 0 then [] else [s]
  | 0, _ => rfl
  | 1, _ => rfl
  | n + 2, s => by
    have ih := dedupConsec_replicate (n + 1) s
    have h2 : List.replicate (n + 2) s = s :: s :: List.replicate n s := rfl
    have h1 : List.replicate (n + 1) s = s :: List.replicate n s := rfl
    rw [h2, dedupConsec]
    simp only [if_pos rfl]
    rw [← h1, ih]
    simp

/-- Claim C1, counterexample. The claim says every submitted task is
observable as pending and then processing before its terminal state, its
status sequence being an initial segment of pending, processing,
completed/failed. A single successful upload produces the status sequence
[completed]: the record is born terminal, pending and processing are never
observable, and [completed] is not an initial segment of either allowed
sequence. -/
theorem C1_counterexample :
    ¬ ∀ (ops : List AppOp) (id : String),
        admissibleC1 (statusHistory id emptyTasks ops) = true :=
  fun h =>
    absurd (h [AppOp.upload "t1" "a.png" "pdf" 0 (Except.ok ())] "t1") (by decide)

/-- Claim C1, amended: along any run of the app whose uploads use fresh ids
(uuid uniqueness), the observable status sequence of every task id is either
empty or a single terminal status — a record is created directly in
completed or failed, never passes through pending or processing, and once
terminal it never changes. -/
theorem C1_amended (ops : List AppOp) (id : String)
    (hfresh : freshFrom emptyTasks ops = true) :
    statusHistory id emptyTasks ops = [] ∨
    statusHistory id emptyTasks ops = [Status.completed] ∨
    statusHistory id emptyTasks ops = [Status.failed] := by
  have hterm : terminalOnly emptyTasks := by
    intro i r h
    simp [emptyTasks] at h
  obtain ⟨n, s, hrep, hterm2⟩ := rawStatuses_shape id ops emptyTasks hterm hfresh
  unfold statusHistory
  rw [hrep, dedupConsec_replicate]
  by_cases hn : n = 0
  · simp [hn]
  · rcases hterm2 hn with h | h <;> simp [hn, h]

/-- Witness for `C1_amended` on a one-upload run. -/
theorem C1_amended_witness :
    freshFrom emptyTasks [AppOp.upload "t1" "a.png" "pdf" 0 (Except.ok ())] = true ∧
    (statusHistory "t1" emptyTasks [AppOp.upload "t1" "a.png" "pdf" 0 (Except.ok ())] = [] ∨
     statusHistory "t1" emptyTasks [AppOp.upload "t1" "a.png" "pdf" 0 (Except.ok ())] =
       [Status.completed] ∨
     statusHistory "t1" emptyTasks [AppOp.upload "t1" "a.png" "pdf" 0 (Except.ok ())] =
       [Status.failed]) :=
  ⟨by decide,
   C1_amended [AppOp.upload "t1" "a.png" "pdf" 0 (Except.ok ())] "t1" (by decide)⟩
